import Mathlib

/-
Shallow embedding of pointingSimIoc.py, the single-file IOC of the
pointingSim repository.  Scalar process-variable values (Python floats)
are modelled as rationals; the pseudo-random draws of numpy
(random_sample, poisson) are modelled as explicit parameters of the
recompute functions, and the transcendental helpers np.exp and np.sin
are modelled as abstract function parameters, so every recompute step
is a pure, executable function of its inputs.
-/

namespace PointingSim

/-- State of one SimCameraCentroid group: the five control knobs and the
two derived centroid values, plus the per-axis caches that the Python
code keeps as dynamically created attributes xcurrent and ycurrent
(absent before the first tick of the axis, modelled as Option). -/
structure CameraState where
  NOISE : ℚ
  NOMINAL_X : ℚ
  NOMINAL_Y : ℚ
  XFACTOR : ℚ
  YFACTOR : ℚ
  Centroid_X : ℚ
  Centroid_Y : ℚ
  xcurrent : Option ℚ
  ycurrent : Option ℚ
deriving Repr, DecidableEq

/-- Construction-time defaults of SimCameraCentroid, taken from the
pvproperty value arguments (lines 27 to 40 of the source): noise 5.0,
nominal centers 0, factors 1.0, centroids 0.0, no per-axis cache yet. -/
def cameraInit : CameraState where
  NOISE := 5
  NOMINAL_X := 0
  NOMINAL_Y := 0
  XFACTOR := 1
  YFACTOR := 1
  Centroid_X := 0
  Centroid_Y := 0
  xcurrent := none
  ycurrent := none

/-- The NOMINAL_X startup hook (source lines 42 to 44): writes width/2. -/
def nominalXStartup (width : ℚ) (s : CameraState) : CameraState :=
  { s with NOMINAL_X := width / 2 }

/-- The NOMINAL_Y startup hook (source lines 46 to 48): writes height/2. -/
def nominalYStartup (height : ℚ) (s : CameraState) : CameraState :=
  { s with NOMINAL_Y := height / 2 }

/-- One tick of the Centroid_X scan task (source lines 50 to 59).
The draw u models np.random.random_sample(), uniform on [0, 1).
If the cache xcurrent exists, the new value is
NOMINAL_X + u * (2 * NOISE - 1); otherwise the first tick writes
width/2 and creates the cache. -/
def centroidXStep (width u : ℚ) (s : CameraState) : CameraState :=
  match s.xcurrent with
  | some _ =>
      let pixel_noise := u * (2 * s.NOISE - 1)
      let xc := s.NOMINAL_X + pixel_noise
      { s with xcurrent := some xc, Centroid_X := xc }
  | none =>
      let xc := width / 2
      { s with xcurrent := some xc, Centroid_X := xc }

/-- One tick of the Centroid_Y scan task (source lines 61 to 70),
mirror image of centroidXStep over height and NOMINAL_Y. -/
def centroidYStep (height u : ℚ) (s : CameraState) : CameraState :=
  match s.ycurrent with
  | some _ =>
      let pixel_noise := u * (2 * s.NOISE - 1)
      let yc := s.NOMINAL_Y + pixel_noise
      { s with ycurrent := some yc, Centroid_Y := yc }
  | none =>
      let yc := height / 2
      { s with ycurrent := some yc, Centroid_Y := yc }

/-- Modelled from the spec: the host framework (out of scope, section 1
of the spec) runs each startup hook once before any periodic scan task;
the booted camera state is therefore the two startup hooks applied to
the construction-time defaults. -/
def cameraBoot (width height : ℚ) : CameraState :=
  nominalYStartup height (nominalXStartup width cameraInit)

/-- A concrete post-initialization camera state used as the scenario of
section 8 of the spec: width 2592, height 1944, NOISE 5, XFACTOR 2 and
nominal center already written to (1296, 972) by the startup hooks, with
both per-axis caches present (so ticks are past the first). -/
def postInitCamera : CameraState where
  NOISE := 5
  NOMINAL_X := 1296
  NOMINAL_Y := 972
  XFACTOR := 2
  YFACTOR := 1
  Centroid_X := 1296
  Centroid_Y := 972
  xcurrent := some 1296
  ycurrent := some 972

/- ----------------------------------------------------------------
MovingDot: the imaging unit.
---------------------------------------------------------------- -/

/-- Frame height N = 480 (source line 78). -/
def N : ℕ := 480

/-- Frame width M = 640 (source line 79). -/
def M : ℕ := 640

/-- Per-axis sigma constants (source lines 81 to 82). -/
def sigmax : ℚ := 50

def sigmay : ℚ := 25

/-- Mean of the Poisson background field (source line 84). -/
def background : ℚ := 1000

/-- Photon-rate constant of the enclosing assembly (source line 158). -/
def N_per_I_per_s : ℚ := 200

/-- State of the MovingDot group: shutter flag, the two motor-position
knobs, the exposure knob and the derived image-sum readout. -/
structure DotState where
  shutter_open : ℤ
  mtrx : ℚ
  mtry : ℚ
  exp : ℚ
  img_sum : ℚ
deriving Repr, DecidableEq

/-- Total of a rendered frame: the sum of all N by M pixels, the model
of numpy ndarray.sum(). -/
def totalSum (img : ℕ → ℕ → ℚ) : ℚ :=
  ∑ i ∈ Finset.range N, ∑ j ∈ Finset.range M, img i j

/-- The expected-dot field of the getter (source lines 105 to 117),
translated literally: with row index i and column index j,
X = (j - M/2 + x)/sigmax, Y = (i - N/2 + y)/sigmay,
dot = gexp(-(X^2 + Y^2)/2) * gexp(-(x^2 + y^2)/100^2), and
measured = N_per_I_per_s * dot * e * I, where gexp models np.exp,
e the exposure value and I the intensity read from the parent. -/
def measured (gexp : ℚ → ℚ) (x y e I : ℚ) (i j : ℕ) : ℚ :=
  let X := ((j : ℚ) - (M : ℚ) / 2 + x) / sigmax
  let Y := ((i : ℚ) - (N : ℚ) / 2 + y) / sigmay
  let dot := gexp (-(X ^ 2 + Y ^ 2) / 2) * gexp (-(x ^ 2 + y ^ 2) / 100 ^ 2)
  N_per_I_per_s * dot * e * I

/-- The expected dot amplitude as the specification words it: the
product of the per-assembly photon-rate constant, the Gaussian profile
of the dot at the motor-driven offset from frame center scaled by the
per-axis sigmas, the falloff attenuation in the offset magnitude over
100^2, the exposure time and the intensity.  Written from the spec, to
be compared with the source translation above. -/
def specExpectedDot (gexp : ℚ → ℚ) (x y e I : ℚ) (i j : ℕ) : ℚ :=
  let gaussianProfile :=
    gexp (-((((j : ℚ) - (M : ℚ) / 2 + x) / sigmax) ^ 2 +
            (((i : ℚ) - (N : ℚ) / 2 + y) / sigmay) ^ 2) / 2)
  let falloff := gexp (-(x ^ 2 + y ^ 2) / 100 ^ 2)
  N_per_I_per_s * gaussianProfile * falloff * e * I

/-- The ArrayData getter (source lines 94 to 120).  backDraw models the
np.random.poisson(background, (N, M)) sample; poissonDraw models
np.random.poisson applied to a mean field (the draw is a function of
the mean field it is sampled from).  Returns the rendered frame and the
state with img_sum updated, exactly as the source: background only when
the shutter value is 0 (falsy), background plus the dot draw otherwise,
and img_sum written to the total of the returned frame in both
branches. -/
def arrayDataGetter (gexp : ℚ → ℚ) (backDraw : ℕ → ℕ → ℚ)
    (poissonDraw : (ℕ → ℕ → ℚ) → ℕ → ℕ → ℚ) (I : ℚ) (s : DotState) :
    (ℕ → ℕ → ℚ) × DotState :=
  if s.shutter_open = 0 then
    (backDraw, { s with img_sum := totalSum backDraw })
  else
    let meas := measured gexp s.mtrx s.mtry s.exp I
    let ret := fun i j => backDraw i j + poissonDraw meas i j
    (ret, { s with img_sum := totalSum ret })

/-- The exp putter (source lines 128 to 131): np.clip(value, 0, None),
that is, values below 0 are raised to 0 and nothing is clipped above.
The putter always returns a committed value; it never rejects. -/
def npClipMin (v lo : ℚ) : ℚ := if v < lo then lo else v

/-- The committed value of a write to the exposure-time variable. -/
def expPutter (value : ℚ) : ℚ := npClipMin value 0

/- ----------------------------------------------------------------
PointingSimulator: the assembly.
---------------------------------------------------------------- -/

/-- State of the PointingSimulator assembly: the NF imaging subgroup and
the derived current variable. -/
structure SimState where
  NF : DotState
  current : ℚ
deriving Repr, DecidableEq

/-- The value of np.pi, the IEEE double closest to pi, as an exact
rational: 884279719003555 / 2^48. -/
def npPi : ℚ := 884279719003555 / 281474976710656

/-- One tick of the current scan task (source lines 162 to 165):
500 + 25 * sin(t * (2 * pi) / 4) at monotonic wall-clock time t, with
sinFn modelling np.sin.  The method receives the assembly state but its
body reads nothing from it. -/
def currentScan (sinFn : ℚ → ℚ) (_s : SimState) (t : ℚ) : ℚ :=
  500 + 25 * sinFn (t * (2 * npPi) / 4)

/-- The sinusoid as the specification words it: 500 + 25 * sin(2 pi t / 4).
Written from the spec, to be compared with the source translation. -/
def specCurrentFormula (sinFn : ℚ → ℚ) (t : ℚ) : ℚ :=
  500 + 25 * sinFn (2 * npPi * t / 4)

/- ----------------------------------------------------------------
Process-variable declarations: access mode and scan period, as written
in the source class bodies.
---------------------------------------------------------------- -/

/-- A process-variable declaration: its local name, whether the
pvproperty carries read_only=True, the period of its scan decorator if
it has one, and whether it has a getter recompute hook.  pvproperty
defaults to a writable variable when read_only is not given. -/
structure PVDecl where
  name : String
  readOnly : Bool
  scanPeriod : Option ℚ
  hasGetter : Bool
deriving Repr, DecidableEq

/-- Centroid_X: read_only=True, scan period 0.2 (source lines 27, 50). -/
def Centroid_X_pv : PVDecl where
  name := "Centroid_X"
  readOnly := true
  scanPeriod := some (1/5)
  hasGetter := false

/-- Centroid_Y: read_only=True, scan period 0.2 (source lines 28, 61). -/
def Centroid_Y_pv : PVDecl where
  name := "Centroid_Y"
  readOnly := true
  scanPeriod := some (1/5)
  hasGetter := false

/-- SimMotor STEPS: no read_only flag, no recompute (source line 73). -/
def STEPS_pv : PVDecl where
  name := "STEPS"
  readOnly := false
  scanPeriod := none
  hasGetter := false

/-- SimMotor VOLTAGE: no read_only flag, no recompute (source line 74). -/
def VOLTAGE_pv : PVDecl where
  name := "VOLTAGE"
  readOnly := false
  scanPeriod := none
  hasGetter := false

/-- ArrayData: read_only=True, recomputed by a getter on each read, no
scan decorator (source lines 88 to 94). -/
def ArrayData_pv : PVDecl where
  name := "ArrayData"
  readOnly := true
  scanPeriod := none
  hasGetter := true

/-- img_sum: read_only=True, no task of its own; it is written as a side
effect of the ArrayData getter (source lines 100, 119, 122). -/
def img_sum_pv : PVDecl where
  name := "img_sum"
  readOnly := true
  scanPeriod := none
  hasGetter := false

/-- current: read_only=True, scan period 0.1 (source lines 160, 162). -/
def current_pv : PVDecl where
  name := "current"
  readOnly := true
  scanPeriod := some (1/10)
  hasGetter := false

/-- ArraySizeY_RBV: read_only=True static metadata (source line 135). -/
def ArraySizeY_RBV_pv : PVDecl where
  name := "ArraySizeY_RBV"
  readOnly := true
  scanPeriod := none
  hasGetter := false

/-- ArraySizeX_RBV: read_only=True static metadata (source line 137). -/
def ArraySizeX_RBV_pv : PVDecl where
  name := "ArraySizeX_RBV"
  readOnly := true
  scanPeriod := none
  hasGetter := false

/-- ArraySize_RBV: read_only=True static metadata (source line 139). -/
def ArraySize_RBV_pv : PVDecl where
  name := "ArraySize_RBV"
  readOnly := true
  scanPeriod := none
  hasGetter := false

/-- Modelled from the spec: the variable-hosting substrate rejects an
external write request to a read-only variable, keeping the current
value; a write to a writable variable commits the proposed value. -/
def externalWrite (d : PVDecl) (current proposed : ℚ) : ℚ :=
  if d.readOnly then current else proposed

/- ----------------------------------------------------------------
Theorems.
---------------------------------------------------------------- -/

/-- C1 (counterexample): in the scenario of the spec (NOISE 5, nominal
center 1296, axis already initialized), the tick with draw u = 19/20
stores Centroid_X = 26091/20 = 1304.55, which lies neither in the
claimed decoupled interval [1291, 1301] nor in the claimed scenario
interval [1311, 1321]; the claimed symmetric bound fails on the code. -/
theorem centroid_range_counterexample :
    postInitCamera.xcurrent = some 1296 ∧
    postInitCamera.NOISE = 5 ∧
    postInitCamera.NOMINAL_X = 1296 ∧
    (0 : ℚ) ≤ 19/20 ∧ (19 : ℚ)/20 < 1 ∧
    (centroidXStep 2592 (19/20) postInitCamera).Centroid_X = 26091/20 ∧
    ¬(1291 ≤ (centroidXStep 2592 (19/20) postInitCamera).Centroid_X ∧
      (centroidXStep 2592 (19/20) postInitCamera).Centroid_X ≤ 1301) ∧
    ¬(1311 ≤ (centroidXStep 2592 (19/20) postInitCamera).Centroid_X ∧
      (centroidXStep 2592 (19/20) postInitCamera).Centroid_X ≤ 1321) := by
  refine ⟨rfl, rfl, rfl, by norm_num, by norm_num, ?_, ?_, ?_⟩ <;>
    simp [centroidXStep, postInitCamera] <;> norm_num

/-- C1 (amended): after the axis is initialized, the stored Centroid_X
equals NOMINAL_X plus a one-sided offset u * (2 * NOISE - 1) with u
drawn from [0, 1); hence for NOISE at least 1/2 it lies in the interval
[NOMINAL_X, NOMINAL_X + 2 * NOISE - 1].  In the scenario with NOISE 5
and nominal center 1296 every post-initialization tick therefore stores
a value in [1296, 1305]. -/
theorem centroidX_post_init_range (width u c : ℚ) (s : CameraState)
    (hx : s.xcurrent = some c) (h0 : 0 ≤ u) (h1 : u < 1)
    (hN : 1/2 ≤ s.NOISE) :
    s.NOMINAL_X ≤ (centroidXStep width u s).Centroid_X ∧
    (centroidXStep width u s).Centroid_X ≤ s.NOMINAL_X + (2 * s.NOISE - 1) := by
  have hnn : 0 ≤ 2 * s.NOISE - 1 := by linarith
  have hlow : 0 ≤ u * (2 * s.NOISE - 1) := mul_nonneg h0 hnn
  have hhigh : u * (2 * s.NOISE - 1) ≤ 2 * s.NOISE - 1 := by
    nlinarith
  simp only [centroidXStep, hx]
  constructor <;> [linarith; linarith]

/-- C1 witness: the amended bound applied at the scenario state with
draw u = 1/2. -/
theorem centroidX_post_init_range_witness :
    postInitCamera.NOMINAL_X ≤
      (centroidXStep 2592 (1/2) postInitCamera).Centroid_X ∧
    (centroidXStep 2592 (1/2) postInitCamera).Centroid_X ≤
      postInitCamera.NOMINAL_X + (2 * postInitCamera.NOISE - 1) :=
  centroidX_post_init_range 2592 (1/2) 1296 postInitCamera rfl
    (by norm_num) (by norm_num) (by norm_num [postInitCamera])

/-- C2: the very first recompute of Centroid_X (no cached xcurrent) and
of Centroid_Y (no cached ycurrent) write exactly width/2 and height/2,
for every width, height, draw, and every choice of NOISE, NOMINAL_X and
NOMINAL_Y held in the state. -/
theorem centroid_first_tick (width height u v : ℚ) (s : CameraState)
    (hx : s.xcurrent = none) (hy : s.ycurrent = none) :
    (centroidXStep width u s).Centroid_X = width / 2 ∧
    (centroidYStep height v s).Centroid_Y = height / 2 := by
  constructor <;> simp [centroidXStep, centroidYStep, hx, hy]

/-- C2 witness: the first-tick theorem applied at the construction-time
default state with width 2592, height 1944. -/
theorem centroid_first_tick_witness :
    (centroidXStep 2592 (1/2) cameraInit).Centroid_X = 2592 / 2 ∧
    (centroidYStep 1944 (1/2) cameraInit).Centroid_Y = 1944 / 2 :=
  centroid_first_tick 2592 1944 (1/2) (1/2) cameraInit rfl rfl

/-- C3: a write to the exposure-time variable always commits and stores
the proposed value clamped to be non-negative: expPutter v = max v 0
for every v; in particular -5 commits 0 and 3.2 = 16/5 commits 16/5. -/
theorem exp_putter_clamps (v : ℚ) :
    expPutter v = max v 0 ∧
    expPutter (-5) = 0 ∧
    expPutter (16/5) = 16/5 := by
  refine ⟨?_, by norm_num [expPutter, npClipMin], by norm_num [expPutter, npClipMin]⟩
  simp only [expPutter, npClipMin]
  rcases lt_or_le v 0 with h | h
  · simp [if_pos h, max_eq_right h.le]
  · simp [if_neg (not_lt.mpr h), max_eq_left h]

/-- C4: with the shutter value 0, the getter returns exactly the drawn
background field, whatever the motor positions, exposure and intensity,
and writes img_sum to the total of that background field (which is also
the total of the returned frame). -/
theorem frame_shutter_closed (gexp : ℚ → ℚ) (backDraw : ℕ → ℕ → ℚ)
    (poissonDraw : (ℕ → ℕ → ℚ) → ℕ → ℕ → ℚ) (I : ℚ) (s : DotState)
    (h : s.shutter_open = 0) :
    (arrayDataGetter gexp backDraw poissonDraw I s).1 = backDraw ∧
    (arrayDataGetter gexp backDraw poissonDraw I s).2.img_sum =
      totalSum backDraw := by
  constructor <;> simp [arrayDataGetter, h]

/-- C4 witness: the closed-shutter theorem at a concrete state. -/
theorem frame_shutter_closed_witness :
    (arrayDataGetter id (fun _ _ => 3) (fun m i j => m i j) 1
        { shutter_open := 0, mtrx := 7, mtry := 9, exp := 2, img_sum := 0 }).1
      = (fun _ _ => 3) ∧
    (arrayDataGetter id (fun _ _ => 3) (fun m i j => m i j) 1
        { shutter_open := 0, mtrx := 7, mtry := 9, exp := 2, img_sum := 0 }).2.img_sum
      = totalSum (fun _ _ => 3) :=
  frame_shutter_closed id (fun _ _ => 3) (fun m i j => m i j) 1
    { shutter_open := 0, mtrx := 7, mtry := 9, exp := 2, img_sum := 0 } rfl

/-- C5: with the shutter open (value not 0), each pixel of the returned
frame is the background draw plus the Poisson draw taken at the mean
field measured, the mean field agrees with the formula of the spec
(photon-rate constant times Gaussian profile times falloff times
exposure times intensity), and img_sum is written to the total of the
returned frame. -/
theorem frame_shutter_open (gexp : ℚ → ℚ) (backDraw : ℕ → ℕ → ℚ)
    (poissonDraw : (ℕ → ℕ → ℚ) → ℕ → ℕ → ℚ) (I : ℚ) (s : DotState)
    (h : ¬ s.shutter_open = 0) (i j : ℕ) :
    (arrayDataGetter gexp backDraw poissonDraw I s).1 i j =
      backDraw i j + poissonDraw (measured gexp s.mtrx s.mtry s.exp I) i j ∧
    measured gexp s.mtrx s.mtry s.exp I i j =
      specExpectedDot gexp s.mtrx s.mtry s.exp I i j ∧
    (arrayDataGetter gexp backDraw poissonDraw I s).2.img_sum =
      totalSum ((arrayDataGetter gexp backDraw poissonDraw I s).1) := by
  refine ⟨?_, ?_, ?_⟩
  · simp [arrayDataGetter, h]
  · simp only [measured, specExpectedDot]
    ring_nf
  · simp [arrayDataGetter, h]

/-- C5 witness: the open-shutter theorem at a concrete state and pixel
(0, 0). -/
theorem frame_shutter_open_witness :
    (arrayDataGetter id (fun _ _ => 3) (fun m i j => m i j) 1
        { shutter_open := 1, mtrx := 7, mtry := 9, exp := 2, img_sum := 0 }).1 0 0
      = 3 + measured id 7 9 2 1 0 0 ∧
    measured id 7 9 2 1 0 0 = specExpectedDot id 7 9 2 1 0 0 ∧
    (arrayDataGetter id (fun _ _ => 3) (fun m i j => m i j) 1
        { shutter_open := 1, mtrx := 7, mtry := 9, exp := 2, img_sum := 0 }).2.img_sum
      = totalSum ((arrayDataGetter id (fun _ _ => 3) (fun m i j => m i j) 1
        { shutter_open := 1, mtrx := 7, mtry := 9, exp := 2, img_sum := 0 }).1) :=
  frame_shutter_open id (fun _ _ => 3) (fun m i j => m i j) 1
    { shutter_open := 1, mtrx := 7, mtry := 9, exp := 2, img_sum := 0 }
    (by decide) 0 0

/-- C6: each tick of the current scan task writes
500 + 25 * sin(2 pi t / 4) of the tick time t, agreeing with the
formula of the spec, and the value is independent of the assembly state
(the task reads no registry variable) and carries no random term. -/
theorem current_sinusoid (sinFn : ℚ → ℚ) (s₁ s₂ : SimState) (t : ℚ) :
    currentScan sinFn s₁ t = specCurrentFormula sinFn t ∧
    currentScan sinFn s₁ t = currentScan sinFn s₂ t := by
  constructor
  · unfold currentScan specCurrentFormula
    ring_nf
  · rfl

/-- C7: after the one-shot startup hooks run (before periodic tasks, as
the boot model orders them), NOMINAL_X holds width/2 and NOMINAL_Y
holds height/2, for every width and height. -/
theorem nominal_startup (width height : ℚ) :
    (cameraBoot width height).NOMINAL_X = width / 2 ∧
    (cameraBoot width height).NOMINAL_Y = height / 2 :=
  ⟨rfl, rfl⟩

/-- C8 (counterexample): the SimMotor step-count and voltage variables
carry no read_only flag in the source; their declarations are writable,
contrary to the claim that all four actuator-readback variables are
declared read-only. -/
theorem steps_not_read_only :
    STEPS_pv.readOnly = false ∧ VOLTAGE_pv.readOnly = false :=
  ⟨rfl, rfl⟩

/-- C8 (amended): every derived variable (the two centroids, ArrayData,
img_sum, current) and the static array-size metadata are declared
read-only, and an external write to any of them commits nothing; but
the SimMotor STEPS and VOLTAGE variables are declared writable. -/
theorem derived_read_only :
    (Centroid_X_pv.readOnly = true ∧ Centroid_Y_pv.readOnly = true ∧
     ArrayData_pv.readOnly = true ∧ img_sum_pv.readOnly = true ∧
     current_pv.readOnly = true ∧ ArraySizeY_RBV_pv.readOnly = true ∧
     ArraySizeX_RBV_pv.readOnly = true ∧ ArraySize_RBV_pv.readOnly = true) ∧
    (∀ c p : ℚ, externalWrite Centroid_X_pv c p = c) ∧
    (∀ c p : ℚ, externalWrite Centroid_Y_pv c p = c) ∧
    (∀ c p : ℚ, externalWrite ArrayData_pv c p = c) ∧
    (∀ c p : ℚ, externalWrite img_sum_pv c p = c) ∧
    (∀ c p : ℚ, externalWrite current_pv c p = c) ∧
    STEPS_pv.readOnly = false ∧ VOLTAGE_pv.readOnly = false := by
  refine ⟨⟨rfl, rfl, rfl, rfl, rfl, rfl, rfl, rfl⟩, ?_, ?_, ?_, ?_, ?_, rfl, rfl⟩ <;>
    intro c p <;> rfl

/-- C9 (counterexample): the frame variable ArrayData owns no periodic
scan task at all — its declaration has no scan decorator, so it has no
period 0.1 task; it is recomputed by a getter on each read. -/
theorem frame_has_no_scan_task :
    ArrayData_pv.scanPeriod = none ∧
    ¬ ArrayData_pv.scanPeriod = some (1/10) ∧
    ArrayData_pv.hasGetter = true := by
  refine ⟨rfl, ?_, rfl⟩
  simp [ArrayData_pv]

/-- C9 (amended): exactly the centroid and current variables own
periodic recompute tasks, the centroid tasks with period 0.2 and the
current task with period 0.1; ArrayData owns no periodic task and is
recomputed on demand by its getter, and img_sum owns no task of its
own. -/
theorem scan_periods :
    Centroid_X_pv.scanPeriod = some (1/5) ∧
    Centroid_Y_pv.scanPeriod = some (1/5) ∧
    current_pv.scanPeriod = some (1/10) ∧
    ArrayData_pv.scanPeriod = none ∧
    ArrayData_pv.hasGetter = true ∧
    img_sum_pv.scanPeriod = none ∧
    STEPS_pv.scanPeriod = none ∧
    VOLTAGE_pv.scanPeriod = none :=
  ⟨rfl, rfl, rfl, rfl, rfl, rfl, rfl, rfl⟩

/-- C10: on every tick after the first of a given axis, the offset added
to the nominal center is u * (2 * NOISE - 1) with u in [0, 1); hence
the offset is one-sided: for NOISE at least 1/2 the stored centroid is
at least the nominal center, and for NOISE below 1/2 it is at most the
nominal center, on both axes. -/
theorem centroid_noise_one_sided (width height u c d : ℚ) (s : CameraState)
    (hx : s.xcurrent = some c) (hy : s.ycurrent = some d)
    (h0 : 0 ≤ u) (_h1 : u < 1) :
    (centroidXStep width u s).Centroid_X = s.NOMINAL_X + u * (2 * s.NOISE - 1) ∧
    (centroidYStep height u s).Centroid_Y = s.NOMINAL_Y + u * (2 * s.NOISE - 1) ∧
    (1/2 ≤ s.NOISE → s.NOMINAL_X ≤ (centroidXStep width u s).Centroid_X ∧
                     s.NOMINAL_Y ≤ (centroidYStep height u s).Centroid_Y) ∧
    (s.NOISE < 1/2 → (centroidXStep width u s).Centroid_X ≤ s.NOMINAL_X ∧
                     (centroidYStep height u s).Centroid_Y ≤ s.NOMINAL_Y) := by
  have hX : (centroidXStep width u s).Centroid_X =
      s.NOMINAL_X + u * (2 * s.NOISE - 1) := by
    simp [centroidXStep, hx]
  have hY : (centroidYStep height u s).Centroid_Y =
      s.NOMINAL_Y + u * (2 * s.NOISE - 1) := by
    simp [centroidYStep, hy]
  refine ⟨hX, hY, ?_, ?_⟩
  · intro hN
    have hnn : 0 ≤ 2 * s.NOISE - 1 := by linarith
    have hmul := mul_nonneg h0 hnn
    exact ⟨by rw [hX]; linarith, by rw [hY]; linarith⟩
  · intro hN
    have hnp : 2 * s.NOISE - 1 ≤ 0 := by linarith
    have hmul := mul_nonpos_of_nonneg_of_nonpos h0 hnp
    exact ⟨by rw [hX]; linarith, by rw [hY]; linarith⟩

/-- C10 witness: the one-sided offset theorem at the scenario state with
draw u = 1/2. -/
theorem centroid_noise_one_sided_witness :
    (centroidXStep 2592 (1/2) postInitCamera).Centroid_X =
      postInitCamera.NOMINAL_X + (1/2) * (2 * postInitCamera.NOISE - 1) ∧
    (centroidYStep 1944 (1/2) postInitCamera).Centroid_Y =
      postInitCamera.NOMINAL_Y + (1/2) * (2 * postInitCamera.NOISE - 1) ∧
    (1/2 ≤ postInitCamera.NOISE →
      postInitCamera.NOMINAL_X ≤ (centroidXStep 2592 (1/2) postInitCamera).Centroid_X ∧
      postInitCamera.NOMINAL_Y ≤ (centroidYStep 1944 (1/2) postInitCamera).Centroid_Y) ∧
    (postInitCamera.NOISE < 1/2 →
      (centroidXStep 2592 (1/2) postInitCamera).Centroid_X ≤ postInitCamera.NOMINAL_X ∧
      (centroidYStep 1944 (1/2) postInitCamera).Centroid_Y ≤ postInitCamera.NOMINAL_Y) :=
  centroid_noise_one_sided 2592 1944 (1/2) 1296 972 postInitCamera rfl rfl
    (by norm_num) (by norm_num)

end PointingSim
